import Mathlib

/-!
Verification development for the engine-selection core of rag-snap
(`pkg/selector`, `pkg/engines`, `pkg/utils`, `pkg/types`).

Shallow embedding notes:
* Go slices that the code compares with `nil` are modelled as `Option (List _)`
  (`nil` is `none`, an allocated empty slice is `some []`); slices whose
  nil-ness is never observed are plain `List _`.
* Go `*T` pointer fields are `Option T`.
* `types.HexInt` is a numeric type whose definition is not in the sources;
  every use in the scoring code is plain numeric equality, so it is a `Nat`.
* Go `uint64` arithmetic wraps modulo 2^64 where the code can overflow
  (`utils.StringToBytes` multiplies by a scaling factor).
* Go `error` returns are `Except String _`; the scorer only branches on
  nil-ness of errors, messages are carried verbatim where they matter.
* `snapctl.IsConnected` (an external process call in `scorePciDevice`) is an
  injected predicate parameter `SnapPredicate`; `snapAllConnected` models the
  `testing.Testing()` stub that answers `true` for every connection.
-/

/-- Go uint64 modulus. -/
def uint64Mod : Nat := 18446744073709551616

/-- Largest Go uint64 value. -/
def uint64Max : Nat := 18446744073709551615

/-- Digit-string parser behind `strconv.ParseUint(s, 10, 64)`: no sign, no
blanks; errors on an empty string, a non-digit character, or a value above
2^64-1. The error messages stand in for Go's `strconv.NumError` texts. -/
def parseUint64 (s : String) : Except String Nat :=
  if s.data.isEmpty then Except.error ("parsing " ++ s ++ ": invalid syntax")
  else if s.data.all Char.isDigit then
    let v := s.data.foldl (fun acc c => acc * 10 + (c.toNat - 48)) 0
    if v ≤ uint64Max then Except.ok v
    else Except.error ("parsing " ++ s ++ ": value out of range")
  else Except.error ("parsing " ++ s ++ ": invalid syntax")

/-- `utils.StringToBytes`: strips a trailing `G` (×2^30) or `M` (×2^20)
suffix, parses the rest as a base-10 uint64, scales with Go's wrapping
uint64 multiplication. The one-character suffix test and strip work on the
character list to stay structurally recursive. -/
def StringToBytes (sizeString : String) : Except String Nat :=
  let p : String × Nat :=
    if sizeString.data.getLast? = some 'G' then
      (String.mk sizeString.data.dropLast, 1024 * 1024 * 1024)
    else if sizeString.data.getLast? = some 'M' then
      (String.mk sizeString.data.dropLast, 1024 * 1024)
    else (sizeString, 1)
  match parseUint64 p.1 with
  | Except.error e => Except.error e
  | Except.ok v => Except.ok (v * p.2 % uint64Mod)

/-- Structural equality decider for `Except` results (not derived in core). -/
instance {ε α : Type} [DecidableEq ε] [DecidableEq α] : DecidableEq (Except ε α) := fun x y =>
  match x, y with
  | Except.error e, Except.error f =>
    if h : e = f then isTrue (congrArg Except.error h)
    else isFalse (fun hxy => h (Except.error.inj hxy))
  | Except.error _, Except.ok _ => isFalse (fun hxy => Except.noConfusion hxy)
  | Except.ok _, Except.error _ => isFalse (fun hxy => Except.noConfusion hxy)
  | Except.ok a, Except.ok b =>
    if h : a = b then isTrue (congrArg Except.ok h)
    else isFalse (fun hxy => h (Except.ok.inj hxy))

/-- First-match lookup in an association list; models reading a Go
`map[string]α` (maps hold at most one entry per key). -/
def lookupStr {α : Type} : List (String × α) → String → Option α
  | [], _ => none
  | (k, v) :: rest, key => if k = key then some v else lookupStr rest key

/-- `Except` error discriminator (Go `err != nil`). -/
def isError {ε α : Type} : Except ε α → Bool
  | Except.error _ => true
  | Except.ok _ => false

/-- `constants.Amd64`. Modelled from the spec: the `constants` package is not
in the sources; the spec fixes the architecture tags to `amd64`/`arm64`. -/
def constAmd64 : String := "amd64"

/-- `constants.Arm64`. Modelled from the spec: see `constAmd64`. -/
def constArm64 : String := "arm64"

/-- `constants.SnapStoragePath`. Modelled from the spec: the fixed
storage-path key used for the disk measurement; its concrete value is not in
the sources and no scoring decision depends on it, only on both sides using
the same key. -/
def SnapStoragePath : String := "snap-storage"

/- weights/weights.go -/

namespace weights

def Tpu : Int := 1000

def TpuVendor : Int := 200

def PciDevice : Int := 100

def PciDeviceExternal : Int := 50

def PciDeviceId : Int := 30

def PciVendorId : Int := 20

def PciDeviceType : Int := 10

def GpuVRam : Int := 10

def GpuComputeCapability : Int := 10

def CpuDevice : Int := 10

def CpuModel : Int := 8

def CpuVendor : Int := 6

def CpuFlag : Int := 1

end weights

/- types/hw_info.go, types/cpu.go, types/pci.go, types/memory.go -/

/-- `types.CpuInfo`. -/
structure CpuInfo where
  architecture : String
  manufacturerId : String
  flags : List String
  implementerId : Nat
  partNumber : Nat
  features : List String
deriving DecidableEq, Repr

/-- `types.PciDevice` (friendly-name fields carried for completeness; the
scorer never reads them). -/
structure PciDevice where
  score : Int
  slot : String
  busNumber : Nat
  deviceClass : Nat
  programmingInterface : Option Nat
  vendorId : Nat
  deviceId : Nat
  subvendorId : Option Nat
  subdeviceId : Option Nat
  vendorName : Option String
  deviceName : Option String
  additionalProperties : List (String × String)
deriving DecidableEq, Repr

/-- `types.MemoryInfo`. -/
structure MemoryInfo where
  totalRam : Nat
  totalSwap : Nat
deriving DecidableEq, Repr

/-- `types.DirStats` (`{total, avail}` byte pair). -/
structure DirStats where
  total : Nat
  avail : Nat
deriving DecidableEq, Repr

/-- `types.HwInfo`. `cpus` is an `Option` because `cpu.Match` distinguishes a
nil CPU slice from an allocated empty one. -/
structure HwInfo where
  cpus : Option (List CpuInfo)
  memory : MemoryInfo
  disk : List (String × DirStats)
  pciDevices : List PciDevice
deriving DecidableEq, Repr

/- engines/devices.go -/

/-- `engines.Device`: one device requirement. Pointer and slice fields are
`Option`s so the schema validator's `reflect.Value.IsZero` test (nil pointer,
nil slice, empty string) is representable. -/
structure Device where
  type : String
  bus : String
  architecture : Option String
  manufacturerId : Option String
  flags : Option (List String)
  implementerId : Option Nat
  partNumber : Option Nat
  features : Option (List String)
  vendorId : Option Nat
  deviceId : Option Nat
  vram : Option String
  computeCapability : Option String
  snapConnections : Option (List String)
  compatibilityIssues : Option (List String)
deriving DecidableEq, Repr

/-- `engines.Devices`: the two requirement groups. -/
structure Devices where
  anyof : List Device
  allof : List Device
deriving DecidableEq, Repr

/-- `engines.Manifest`. The `Configurations` map (primitive-valued overrides)
is omitted: no scoring or selection function reads it. -/
structure Manifest where
  name : String
  description : String
  vendor : String
  grade : String
  devices : Devices
  memory : Option String
  diskSpace : Option String
  components : Option (List String)
deriving DecidableEq, Repr

/-- `engines.ScoredManifest`. -/
structure ScoredManifest where
  manifest : Manifest
  score : Int
  compatible : Bool
  compatibilityIssues : List String
deriving DecidableEq, Repr

/- selector/cpu/cpu.go -/

/-- Hex rendering used by Go's `%x` verb in issue strings. -/
def toHexString (n : Nat) : String :=
  String.mk (Nat.toDigits 16 n)

/-- The flags/features loops of `cpu.CheckCpu`: each required string present
in the host's set adds `CpuFlag`, each missing one appends its issue (all are
reported, not only the first). -/
def requiredStringsFold (hostValues : List String) (missingMsg : String → String)
    (init : Int × List String) : List String → Int × List String
  | [] => init
  | v :: rest =>
    if hostValues.contains v then
      requiredStringsFold hostValues missingMsg (init.1 + weights.CpuFlag, init.2) rest
    else
      requiredStringsFold hostValues missingMsg (init.1, init.2 ++ [missingMsg v]) rest

/-- The architecture check of `cpu.CheckCpu`: a set architecture that differs
from the host CPU's is an issue (matching adds no weight). -/
def checkCpuArchIssues (manifestDevice : Device) (hostCpu : CpuInfo) : List String :=
  match manifestDevice.architecture with
  | some a => if a = hostCpu.architecture then [] else ["architecture not " ++ a]
  | none => []

/-- The amd64 section of `cpu.CheckCpu`: manufacturer-id exact match adds
`CpuVendor`, required flags add `CpuFlag` each. -/
def checkCpuAmd64 (manifestDevice : Device) (hostCpu : CpuInfo) : Int × List String :=
  if hostCpu.architecture = constAmd64 then
    let manu : Int × List String :=
      match manifestDevice.manufacturerId with
      | some m =>
        if m = hostCpu.manufacturerId then (weights.CpuVendor, [])
        else (0, ["manufacturer id mismatch: " ++ hostCpu.manufacturerId])
      | none => (0, [])
    let fl : Int × List String :=
      requiredStringsFold hostCpu.flags (fun flag => "flag " ++ flag ++ " missing")
        (0, []) (manifestDevice.flags.getD [])
    (manu.1 + fl.1, manu.2 ++ fl.2)
  else (0, [])

/-- The arm64 section of `cpu.CheckCpu`: implementer-id adds `CpuVendor`,
part-number adds `CpuModel`, required features add `CpuFlag` each. -/
def checkCpuArm64 (manifestDevice : Device) (hostCpu : CpuInfo) : Int × List String :=
  if hostCpu.architecture = constArm64 then
    let impl : Int × List String :=
      match manifestDevice.implementerId with
      | some i =>
        if i = hostCpu.implementerId then (weights.CpuVendor, [])
        else (0, ["implementer id mismatch: " ++ toHexString hostCpu.implementerId])
      | none => (0, [])
    let part : Int × List String :=
      match manifestDevice.partNumber with
      | some p =>
        if p = hostCpu.partNumber then (weights.CpuModel, [])
        else (0, ["part number mismatch: " ++ toHexString hostCpu.partNumber])
      | none => (0, [])
    let ft : Int × List String :=
      requiredStringsFold hostCpu.features (fun feature => "feature not found: " ++ feature)
        (0, []) (manifestDevice.features.getD [])
    (impl.1 + part.1 + ft.1, impl.2 ++ part.2 ++ ft.2)
  else (0, [])

/-- `cpu.CheckCpu`: base weight `CpuDevice` plus the architecture, amd64 and
arm64 sections; any issue forces the CPU's score to 0. -/
def checkCpu (manifestDevice : Device) (hostCpu : CpuInfo) : Int × List String :=
  let archIssues := checkCpuArchIssues manifestDevice hostCpu
  let amd := checkCpuAmd64 manifestDevice hostCpu
  let arm := checkCpuArm64 manifestDevice hostCpu
  let issues := archIssues ++ amd.2 ++ arm.2
  let cpuScore := weights.CpuDevice + amd.1 + arm.1
  if issues.length > 0 then (0, issues) else (cpuScore, issues)

/-- The per-CPU loop of `cpu.Match`: tracks the best issue-free score and
collects issues, index-prefixed when the host has more than one CPU. -/
def cpuMatchLoop (manifestDevice : Device) (n : Nat) (acc : Int × List String) :
    List (Nat × CpuInfo) → Int × List String
  | [] => acc
  | icpu :: rest =>
    let res := checkCpu manifestDevice icpu.2
    let acc2 : Int × List String :=
      if res.2.length > 0 then
        if n > 1 then
          (acc.1, acc.2 ++ res.2.map (fun issue => "cpu " ++ toString icpu.1 ++ ": " ++ issue))
        else
          (acc.1, acc.2 ++ res.2)
      else
        if res.1 > acc.1 then (res.1, acc.2) else acc
    cpuMatchLoop manifestDevice n acc2 rest

/-- `cpu.Match`: best score over all host CPUs; a nil host CPU list is
reported as `"no cpu found on host system"`; per-CPU issues are prefixed with
the CPU index when more than one host CPU exists. -/
def cpuMatch (manifestDevice : Device) (hostCpus : Option (List CpuInfo)) : Int × List String :=
  let baseIssues : List String :=
    match hostCpus with
    | none => ["no cpu found on host system"]
    | some _ => []
  let cpus := hostCpus.getD []
  cpuMatchLoop manifestDevice cpus.length (0, baseIssues) cpus.enum

/- selector/pci/pci.go, selector/pci/properties.go -/

/-- Injected form of `checkSnapConnection` / `snapctl.IsConnected`: an
external driver/permission probe, outside this core. -/
def SnapPredicate : Type := String → Except String Bool

/-- The `testing.Testing()` stub in `checkSnapConnection`: every connection
reports as connected. -/
def snapAllConnected : SnapPredicate := fun _ => Except.ok true

/-- `filterPciDevices`' per-device include decision: vendor-id must equal when
the requirement sets it; device-id is compared only inside the matching-vendor
branch (a model id is only unique per vendor-id namespace); an unset
requirement field filters nothing. -/
def includePciDevice (vendorId deviceId : Option Nat) (pciDevice : PciDevice) : Bool :=
  match vendorId with
  | none => true
  | some v =>
    if v ≠ pciDevice.vendorId then false
    else
      match deviceId with
      | none => true
      | some d => if d ≠ pciDevice.deviceId then false else true

/-- `filterPciDevices`: keeps the host PCI devices passing
`includePciDevice`; emits no diagnostics by design. -/
def filterPciDevices (pciDevices : List PciDevice) (vendorId deviceId : Option Nat) : List PciDevice :=
  pciDevices.filter (includePciDevice vendorId deviceId)

/-- `checkType`: maps the requirement's device type to accepted PCI device
classes (`gpu`: legacy VGA 0x0001 or display controllers 0x03xx; `npu`/`tpu`:
processing accelerators 0x12xx or co-processor 0x0B40). -/
def checkType (requiredType : String) (pciDevice : PciDevice) : Bool :=
  if requiredType = "gpu" ∧
      (pciDevice.deviceClass = 0x0001 ∨ pciDevice.deviceClass &&& 0xFF00 = 0x0300) then
    true
  else if (requiredType = "npu" ∨ requiredType = "tpu") ∧
      (pciDevice.deviceClass &&& 0xFF00 = 0x1200 ∨ pciDevice.deviceClass = 0x0B40) then
    true
  else false

/-- `hasAdditionalProperties`: the requirement declares a VRAM minimum or a
compute-capability requirement. -/
def hasAdditionalProperties (device : Device) : Bool :=
  if device.vram.isSome then true
  else if device.computeCapability.isSome then true
  else false

/-- `checkVram`: byte-size comparison `available ≥ required` against the
device's `"vram"` additional property; a missing or unparsable property is an
error. Only called with `device.vram` set (the Go code dereferences it). -/
def checkVram (device : Device) (pciDevice : PciDevice) : Except String Unit :=
  match StringToBytes (device.vram.getD "") with
  | Except.error e => Except.error e
  | Except.ok vramRequired =>
    match lookupStr pciDevice.additionalProperties "vram" with
    | some vram =>
      match StringToBytes vram with
      | Except.error e => Except.error ("error parsing vRAM: " ++ e)
      | Except.ok vramAvailable =>
        if vramAvailable ≥ vramRequired then Except.ok ()
        else Except.error ("not enough vRAM: " ++ toString vramAvailable)
    | none => Except.error "unable to detect vRAM"

/-- `checkProperties`: scores the declared additional properties. Only the
VRAM requirement is checked; the compute-capability check is a `TODO` in the
source and contributes nothing. -/
def checkProperties (device : Device) (pciDevice : PciDevice) : Except String Int :=
  match device.vram with
  | some _ =>
    match checkVram device pciDevice with
    | Except.error e => Except.error e
    | Except.ok _ => Except.ok weights.GpuVRam
  | none => Except.ok 0

/-- Zero-padded 4-wide lowercase hex, Go's `%04x`. -/
def toHexPad4 (n : Nat) : String :=
  let s := toHexString n
  (if s.length < 4 then String.mk (List.replicate (4 - s.length) '0') else "") ++ s

/-- The snap-connection loop of `scorePciDevice`: first probe error or
unconnected interface stops the loop with its issue. -/
def checkSnapConnectionsLoop (snapConnected : SnapPredicate) : List String → Option String
  | [] => none
  | connection :: rest =>
    match snapConnected connection with
    | Except.error e =>
      some ("error checking snap connection \"" ++ connection ++ "\": " ++ e)
    | Except.ok connected =>
      if connected then checkSnapConnectionsLoop snapConnected rest
      else some ("\"" ++ connection ++ "\" is not connected")

/-- `scorePciDevice`: type-class check (`PciDeviceType`), discrete-device
bonus (`PciDeviceExternal` when bus-number > 0), additional-properties check,
snap-connection checks; any failure returns score 0 with one issue. -/
def scorePciDevice (snapConnected : SnapPredicate) (manifestDevice : Device)
    (hostPciDevice : PciDevice) : Int × List String :=
  if manifestDevice.type ≠ "" ∧ ¬ checkType manifestDevice.type hostPciDevice then
    (0, ["device class 0x" ++ toHexPad4 hostPciDevice.deviceClass ++
          " not of required type " ++ manifestDevice.type])
  else
    let typeScore : Int := if manifestDevice.type ≠ "" then weights.PciDeviceType else 0
    let busScore : Int :=
      typeScore + (if hostPciDevice.busNumber > 0 then weights.PciDeviceExternal else 0)
    let props : Except String Int :=
      if hasAdditionalProperties manifestDevice then
        checkProperties manifestDevice hostPciDevice
      else Except.ok 0
    match props with
    | Except.error e => (0, [e])
    | Except.ok propsScore =>
      match checkSnapConnectionsLoop snapConnected (manifestDevice.snapConnections.getD []) with
      | some issue => (0, [issue])
      | none => (busScore + propsScore, [])

/-- `scorePciDevices`: scores every pre-filtered device, storing the score on
the device and prefixing issues with the device slot; an empty filtered list
is the single issue `"device not found"`. -/
def scorePciDevices (snapConnected : SnapPredicate) (manifestDevice : Device)
    (hostPciDevices : List PciDevice) : List PciDevice × List String :=
  let baseIssues : List String := if hostPciDevices.length = 0 then ["device not found"] else []
  let scored := hostPciDevices.map (fun p =>
    let r := scorePciDevice snapConnected manifestDevice p
    ({p with score := r.1}, r.2.map (fun issue => "pci " ++ p.slot ++ ": " ++ issue)))
  (scored.map Prod.fst, baseIssues ++ (scored.map Prod.snd).flatten)

/-- The max-score loop of `pci.Match`. -/
def maxPciScore (m : Int) : List PciDevice → Int
  | [] => m
  | p :: rest => maxPciScore (if p.score > m then p.score else m) rest

/-- `pci.Match`: filters by vendor/device id, scores the remainder, returns
the maximum device score; the per-device issues are only reported when no
device scored above 0, and an empty host PCI list is its own issue. -/
def pciMatch (snapConnected : SnapPredicate) (manifestDevice : Device)
    (hostPciDevices : List PciDevice) : Int × List String :=
  if hostPciDevices.length = 0 then
    (0, ["no pci devices on host system"])
  else
    let availableDevices :=
      filterPciDevices hostPciDevices manifestDevice.vendorId manifestDevice.deviceId
    let r := scorePciDevices snapConnected manifestDevice availableDevices
    let maxDeviceScore := maxPciScore 0 r.1
    if maxDeviceScore = 0 then (maxDeviceScore, r.2) else (maxDeviceScore, [])

/- selector/selection.go -/

/-- Loop body of `checkDevicesAll`: accumulator is
(compatible, extraScore, issues). A cpu-typed requirement uses the CPU
matcher; `usb` is the unimplemented bus; an empty or `pci` bus falls back to
the PCI matcher; any other bus is skipped silently. -/
def allofStep (snapConnected : SnapPredicate) (hw : HwInfo)
    (acc : Bool × Int × List String) (d : Device) : Bool × Int × List String :=
  if d.type = "cpu" then
    let r := cpuMatch d hw.cpus
    if r.2.length > 0 then (false, acc.2.1, acc.2.2 ++ ["required cpu device not found"])
    else (acc.1, acc.2.1 + r.1, acc.2.2)
  else if d.bus = "usb" then
    (false, acc.2.1, acc.2.2 ++ ["usb device matching not implemented"])
  else if d.bus = "" ∨ d.bus = "pci" then
    let r := pciMatch snapConnected d hw.pciDevices
    if r.2.length > 0 then (false, acc.2.1, acc.2.2 ++ ["required pci device not found"])
    else (acc.1, acc.2.1 + r.1, acc.2.2)
  else acc

/-- `checkDevicesAll`: every requirement is checked; any matcher issue (or a
usb requirement) clears `compatible`, and an incompatible group returns score
0 with the collected summary issues. -/
def checkDevicesAll (snapConnected : SnapPredicate) (hw : HwInfo)
    (devices : List Device) : Int × List String :=
  let r := devices.foldl (allofStep snapConnected hw) (true, 0, [])
  (if ¬ r.1 then 0 else r.2.1, r.2.2)

/-- Loop body of `checkDevicesAny`: accumulator is
(compatible, extraScore, devicesFound, issues). Requirements whose matcher
reports issues are skipped without any group-level issue; an issue-free match
counts as found and adds its score; a usb requirement clears `compatible`
with an issue. -/
def anyofStep (snapConnected : SnapPredicate) (hw : HwInfo)
    (acc : Bool × Int × Nat × List String) (d : Device) : Bool × Int × Nat × List String :=
  if d.type = "cpu" then
    let r := cpuMatch d hw.cpus
    if r.2.length > 0 then acc
    else (acc.1, acc.2.1 + r.1, acc.2.2.1 + 1, acc.2.2.2)
  else if d.bus = "usb" then
    (false, acc.2.1, acc.2.2.1, acc.2.2.2 ++ ["usb device matching not implemented"])
  else if d.bus = "" ∨ d.bus = "pci" then
    let r := pciMatch snapConnected d hw.pciDevices
    if r.2.length > 0 then acc
    else (acc.1, acc.2.1 + r.1, acc.2.2.1 + 1, acc.2.2.2)
  else acc

/-- `checkDevicesAny`: at least one requirement must be found (match with no
issues); otherwise, or when any usb requirement is present, the group is
incompatible and scores 0; else the found requirements' scores are summed. -/
def checkDevicesAny (snapConnected : SnapPredicate) (hw : HwInfo)
    (devices : List Device) : Int × List String :=
  let r := devices.foldl (anyofStep snapConnected hw) (true, 0, 0, [])
  let fin : Bool × List String :=
    if devices.length > 0 ∧ r.2.2.1 = 0 then (false, r.2.2.2 ++ ["required device not found"])
    else (r.1, r.2.2.2)
  (if ¬ fin.1 then 0 else r.2.1, fin.2)

/-- Memory stage of `checkEngine`: a declared requirement must parse; an
unreported RAM total (`TotalRam == 0`) is a hard error, not an
incompatibility; swap counts toward the available total. The Go sum
`TotalRam + TotalSwap` is uint64 addition, so it wraps modulo 2^64. Returns
(score contribution, reasons, compatible). -/
def checkEngineMemory (hw : HwInfo) (manifest : Manifest) :
    Except String (Int × List String × Bool) :=
  match manifest.memory with
  | none => Except.ok (0, [], true)
  | some memStr =>
    match StringToBytes memStr with
    | Except.error e => Except.error ("failed to parse required memory: " ++ e)
    | Except.ok requiredMemory =>
      if hw.memory.totalRam = 0 then
        Except.error "total memory not reported by host system"
      else if (hw.memory.totalRam + hw.memory.totalSwap) % uint64Mod < requiredMemory then
        Except.ok (0, ["host system memory too small"], false)
      else Except.ok (1, [], true)

/-- Disk stage of `checkEngine`: a declared requirement must parse; a missing
measurement at the fixed storage path is a hard error; otherwise available
bytes at that path must cover the requirement. -/
def checkEngineDisk (hw : HwInfo) (manifest : Manifest) :
    Except String (Int × List String × Bool) :=
  match manifest.diskSpace with
  | none => Except.ok (0, [], true)
  | some diskStr =>
    match StringToBytes diskStr with
    | Except.error e => Except.error ("failed to parse required disk space: " ++ e)
    | Except.ok requiredDisk =>
      match lookupStr hw.disk SnapStoragePath with
      | none => Except.error "disk space not reported by host system"
      | some stats =>
        if stats.avail < requiredDisk then
          Except.ok (0, ["host system disk space too small"], false)
        else Except.ok (1, [], true)

/-- `checkEngine`: memory and disk sufficiency (1 point each), then the
`allof` and `anyof` device groups; any reason clears `compatible` and an
incompatible manifest scores 0. Hard errors abort with `Except.error`. -/
def checkEngine (snapConnected : SnapPredicate) (hw : HwInfo) (manifest : Manifest) :
    Except String (Int × List String) :=
  match checkEngineMemory hw manifest with
  | Except.error e => Except.error e
  | Except.ok mem =>
    match checkEngineDisk hw manifest with
    | Except.error e => Except.error e
    | Except.ok dsk =>
      let allr :=
        if manifest.devices.allof.length > 0 then
          checkDevicesAll snapConnected hw manifest.devices.allof
        else (0, [])
      let anyr :=
        if manifest.devices.anyof.length > 0 then
          checkDevicesAny snapConnected hw manifest.devices.anyof
        else (0, [])
      let engineScore := mem.1 + dsk.1
        + (if allr.2.isEmpty then allr.1 else 0)
        + (if anyr.2.isEmpty then anyr.1 else 0)
      let compatible := mem.2.2 && dsk.2.2 && allr.2.isEmpty && anyr.2.isEmpty
      let reasons := mem.2.1 ++ dsk.2.1 ++ allr.2 ++ anyr.2
      Except.ok (if compatible then engineScore else 0, reasons)

/-- `ScoreEngines`: scores each manifest in order into a `ScoredManifest`
(`Compatible` is true unless the score is 0); the first `checkEngine` error
aborts the whole batch with no scored manifests. -/
def ScoreEngines (snapConnected : SnapPredicate) (hw : HwInfo) :
    List Manifest → Except String (List ScoredManifest)
  | [] => Except.ok []
  | m :: rest =>
    match checkEngine snapConnected hw m with
    | Except.error e => Except.error e
    | Except.ok r =>
      match ScoreEngines snapConnected hw rest with
      | Except.error e => Except.error e
      | Except.ok l =>
        Except.ok ({ manifest := m, score := r.1,
                     compatible := if r.1 = 0 then false else true,
                     compatibilityIssues := r.2 } :: l)

/-- The sentinel `ErrorNoCompatibleEngine`. -/
def ErrorNoCompatibleEngine : String := "no compatible engines found"

/-- The comparison closure `TopEngine` hands to `sort.Slice`: score
descending, nothing else (the grade-preferring display ordering lives in the
CLI list command, not here). -/
def topEngineLess (i j : ScoredManifest) : Bool := decide (i.score > j.score)

/-- The shape of Go's `sort.Slice`: an in-place sort of the slice by a less
closure. The algorithm itself is in the Go runtime, outside this repository;
theorems hypothesize only its documented guarantee of permuting the slice
(Go documents `sort.Slice` as NOT guaranteed stable). -/
def SortSliceImpl : Type :=
  List ScoredManifest → (ScoredManifest → ScoredManifest → Bool) → List ScoredManifest

/-- `TopEngine`: keeps the scored manifests with `Score > 0` and grade
`stable`, errors with the sentinel when none remain, sorts the rest by score
descending via `sort.Slice` and returns the first. The `[]` fallback is
unreachable for any length-preserving sort and exists only for totality. -/
def TopEngine (sortSlice : SortSliceImpl) (scoredEngines : List ScoredManifest) :
    Except String ScoredManifest :=
  let compatibleEngines := scoredEngines.filter
    (fun e => decide (e.score > 0) && decide (e.manifest.grade = "stable"))
  if compatibleEngines.length = 0 then Except.error ErrorNoCompatibleEngine
  else
    match sortSlice compatibleEngines topEngineLess with
    | [] => Except.error ErrorNoCompatibleEngine
    | top :: _ => Except.ok top

/- engines/validate.go, engines/busses.go, engines/cpus.go -/

/-- Prepends Go's `fmt.Errorf("<context>: %v", err)` wrapping. -/
def wrapError {α : Type} (context : String) : Except String α → Except String α
  | Except.error e => Except.error (context ++ e)
  | Except.ok a => Except.ok a

/-- The `(field name, IsZero complement)` view of a `Device` that the
reflection loops in `validatePci` / `validateAmd64` / `validateArm64` walk,
in struct declaration order. -/
def deviceFieldSet (device : Device) : List (String × Bool) :=
  [("Type", device.type != ""),
   ("Bus", device.bus != ""),
   ("Architecture", device.architecture.isSome),
   ("ManufacturerId", device.manufacturerId.isSome),
   ("Flags", device.flags.isSome),
   ("ImplementerId", device.implementerId.isSome),
   ("PartNumber", device.partNumber.isSome),
   ("Features", device.features.isSome),
   ("VendorId", device.vendorId.isSome),
   ("DeviceId", device.deviceId.isSome),
   ("VRam", device.vram.isSome),
   ("ComputeCapability", device.computeCapability.isSome),
   ("SnapConnections", device.snapConnections.isSome),
   ("CompatibilityIssues", device.compatibilityIssues.isSome)]

/-- The reflection allow-list check shared by the per-variant validators:
the first set field outside `validFields` is the error. -/
def checkValidFields (device : Device) (validFields : List String) (context : String) :
    Except String Unit :=
  match (deviceFieldSet device).find? (fun f => f.2 && !(validFields.contains f.1)) with
  | some f => Except.error (context ++ ": invalid field: " ++ f.1)
  | none => Except.ok ()

/-- `validateAmd64`. -/
def validateAmd64 (device : Device) : Except String Unit :=
  checkValidFields device ["Type", "Architecture", "ManufacturerId", "Flags"] "cpu amd64"

/-- `validateArm64`. -/
def validateArm64 (device : Device) : Except String Unit :=
  checkValidFields device ["Type", "Architecture", "ImplementerId", "PartNumber", "Features"]
    "cpu arm64"

/-- `validateCpu`: architecture is required and dispatches to the per-arch
field allow-list. -/
def validateCpu (device : Device) : Except String Unit :=
  match device.architecture with
  | none => Except.error "architecture field required"
  | some arch =>
    if arch = constAmd64 then validateAmd64 device
    else if arch = constArm64 then validateArm64 device
    else Except.error ("invalid architecture: " ++ arch)

/-- `validatePci`: allow-list check with per-type extra fields. -/
def validatePci (device : Device) (extraFields : List String) : Except String Unit :=
  checkValidFields device
    (["Type", "Bus", "VendorId", "DeviceId", "SnapConnections"] ++ extraFields) "pci device"

/-- `validateUsb`: unconditionally an error — usb validation is not
implemented. -/
def validateUsb (_device : Device) (_extraFields : List String) : Except String Unit :=
  Except.error "usb device validation not implemented"

/-- `validateBus`: `pci` and the empty default validate as PCI, `usb` hits
the unimplemented branch, anything else is an invalid bus. -/
def validateBus (device : Device) (extraFields : List String) : Except String Unit :=
  if device.bus = "pci" then validatePci device extraFields
  else if device.bus = "usb" then validateUsb device extraFields
  else if device.bus = "" then validatePci device extraFields
  else Except.error ("invalid bus: " ++ device.bus)

/-- `validateGpu`. -/
def validateGpu (device : Device) : Except String Unit :=
  wrapError "gpu: " (validateBus device ["VRam", "ComputeCapability"])

/-- `validateNpu`. -/
def validateNpu (device : Device) : Except String Unit :=
  wrapError "npu: " (validateBus device [])

/-- `validateTypelessDevice`. -/
def validateTypelessDevice (device : Device) : Except String Unit :=
  wrapError "typeless device: " (validateBus device [])

/-- `Device.validate`: dispatch on the device type. -/
def deviceValidate (device : Device) : Except String Unit :=
  if device.type = "cpu" then wrapError "cpu: " (validateCpu device)
  else if device.type = "gpu" then wrapError "gpu: " (validateGpu device)
  else if device.type = "npu" then wrapError "npu: " (validateNpu device)
  else if device.type = "" then wrapError "typeless: " (validateTypelessDevice device)
  else Except.error ("invalid device type: " ++ device.type)

/-- The indexed loop of `Devices.validate` over one group. -/
def validateDeviceGroup (groupName : String) (total : Nat) :
    Nat → List Device → Except String Unit
  | _, [] => Except.ok ()
  | i, d :: rest =>
    match deviceValidate d with
    | Except.error e =>
      Except.error ("invalid device: " ++ groupName ++ " " ++ toString (i + 1) ++ "/"
        ++ toString total ++ ": " ++ e)
    | Except.ok _ => validateDeviceGroup groupName total (i + 1) rest

/-- `Devices.validate`: allof first, then anyof. -/
def devicesValidate (devices : Devices) : Except String Unit :=
  match validateDeviceGroup "allof" devices.allof.length 0 devices.allof with
  | Except.error e => Except.error e
  | Except.ok _ => validateDeviceGroup "anyof" devices.anyof.length 0 devices.anyof

/- Characterization vocabulary for the device-group semantics.
These predicates name the branch a requirement takes inside
`checkDevicesAll` / `checkDevicesAny`; the claim theorems relate the group
functions to them. -/

/-- The requirement routes to the CPU matcher (`type == "cpu"`). -/
def isCpuReq (d : Device) : Bool := decide (d.type = "cpu")

/-- The requirement hits the unimplemented usb branch. -/
def isUsbReq (d : Device) : Bool := !(decide (d.type = "cpu")) && decide (d.bus = "usb")

/-- The requirement routes to the PCI matcher (empty bus defaults to pci). -/
def isPciReq (d : Device) : Bool :=
  !(decide (d.type = "cpu")) && !(decide (d.bus = "usb")) &&
    decide (d.bus = "" ∨ d.bus = "pci")

/-- The matcher result for one requirement: the CPU matcher for cpu-typed
requirements, the PCI matcher on the pci/default bus, and the neutral result
for requirements both loops skip. -/
def deviceMatch (snapConnected : SnapPredicate) (hw : HwInfo) (d : Device) : Int × List String :=
  if isCpuReq d then cpuMatch d hw.cpus
  else if isPciReq d then pciMatch snapConnected d hw.pciDevices
  else (0, [])

/-- The requirement's matcher produced no issues. -/
def deviceNoIssues (snapConnected : SnapPredicate) (hw : HwInfo) (d : Device) : Bool :=
  (deviceMatch snapConnected hw d).2.isEmpty

/-- The requirement counts as found by `checkDevicesAny`: it reaches a
matcher and that matcher reports no issues (its score may still be 0). -/
def deviceFound (snapConnected : SnapPredicate) (hw : HwInfo) (d : Device) : Bool :=
  (isCpuReq d || isPciReq d) && deviceNoIssues snapConnected hw d

/-- The requirement adds no summary issue in the allof loop: it is not a usb
requirement, and if a matcher runs for it, that matcher is issue-free. -/
def allofOk (snapConnected : SnapPredicate) (hw : HwInfo) (d : Device) : Bool :=
  !(isUsbReq d) && (!(isCpuReq d || isPciReq d) || deviceNoIssues snapConnected hw d)

/-- The summary issues one requirement contributes in the allof loop. -/
def allofIssueMsg (snapConnected : SnapPredicate) (hw : HwInfo) (d : Device) : List String :=
  if isCpuReq d then
    (if deviceNoIssues snapConnected hw d then [] else ["required cpu device not found"])
  else if isUsbReq d then ["usb device matching not implemented"]
  else if isPciReq d then
    (if deviceNoIssues snapConnected hw d then [] else ["required pci device not found"])
  else []

/-- The summary issues one requirement contributes in the anyof loop (only
usb requirements contribute one). -/
def anyofIssueMsg (d : Device) : List String :=
  if isUsbReq d then ["usb device matching not implemented"] else []

/-- Sum of the matcher scores of the found requirements of a group. -/
def foundScoreSum (snapConnected : SnapPredicate) (hw : HwInfo) (ds : List Device) : Int :=
  ((ds.filter (deviceFound snapConnected hw)).map
    (fun d => (deviceMatch snapConnected hw d).1)).sum

/- Concrete fixtures used by counterexamples and witnesses. -/

/-- A `Device` with every field unset. -/
def emptyDevice : Device :=
  { type := "", bus := "", architecture := none, manufacturerId := none, flags := none,
    implementerId := none, partNumber := none, features := none, vendorId := none,
    deviceId := none, vram := none, computeCapability := none, snapConnections := none,
    compatibilityIssues := none }

/-- A manifest with no requirements, grade `stable`. -/
def baseManifest : Manifest :=
  { name := "test", description := "test", vendor := "test", grade := "stable",
    devices := { anyof := [], allof := [] }, memory := none, diskSpace := none,
    components := none }

/-- An integrated (bus 0) display controller, vendor 0xAAAA device 0x9999,
with no additional properties. -/
def pciDevA : PciDevice :=
  { score := 0, slot := "00:02.0", busNumber := 0, deviceClass := 0x0300,
    programmingInterface := none, vendorId := 0xAAAA, deviceId := 0x9999,
    subvendorId := none, subdeviceId := none, vendorName := none, deviceName := none,
    additionalProperties := [] }

/-- The same controller as a discrete device (bus 1). -/
def pciDevB : PciDevice :=
  { pciDevA with slot := "01:00.0", busNumber := 1 }

/-- An amd64 host CPU with the avx2 flag. -/
def cpuIntel : CpuInfo :=
  { architecture := "amd64", manufacturerId := "GenuineIntel", flags := ["avx2"],
    implementerId := 0, partNumber := 0, features := [] }

/-- An amd64 host CPU from another manufacturer. -/
def cpuAmd : CpuInfo :=
  { cpuIntel with manufacturerId := "AuthenticAMD" }

/-- A vendor-only PCI requirement matching `pciDevA` (scores 0 issue-free:
no type, integrated bus, no properties). -/
def reqVendorOnly : Device := { emptyDevice with vendorId := some 0xAAAA }

/-- A bare cpu requirement (matches any host CPU at the base weight). -/
def reqCpuAny : Device := { emptyDevice with type := "cpu" }

/-- A cpu requirement pinned to the `GenuineIntel` manufacturer. -/
def reqCpuIntel : Device :=
  { emptyDevice with type := "cpu", manufacturerId := some "GenuineIntel" }

/-- A bare gpu requirement. -/
def reqGpu : Device := { emptyDevice with type := "gpu" }

/-- A bare npu requirement (never matched by a display controller). -/
def reqNpu : Device := { emptyDevice with type := "npu" }

/-- A gpu requirement on the usb bus. -/
def reqUsbGpu : Device := { emptyDevice with type := "gpu", bus := "usb" }

/-- A gpu requirement declaring only a compute capability. -/
def reqGpuCc : Device := { emptyDevice with type := "gpu", computeCapability := some "8.0" }

/-- Host with one integrated matching PCI device, an allocated empty CPU
list, ample memory, no disk data. -/
def hwIntegrated : HwInfo :=
  { cpus := some [], memory := { totalRam := 2147483648, totalSwap := 0 }, disk := [],
    pciDevices := [pciDevA] }

/-- Host with one Intel CPU and the integrated PCI device; memory
unreported. -/
def hwCpuPci : HwInfo :=
  { cpus := some [cpuIntel], memory := { totalRam := 0, totalSwap := 0 }, disk := [],
    pciDevices := [pciDevA] }

/-- Host with one AMD and one Intel CPU (index prefixes active) and a
discrete display controller. -/
def hwTwoCpus : HwInfo :=
  { cpus := some [cpuAmd, cpuIntel], memory := { totalRam := 0, totalSwap := 0 }, disk := [],
    pciDevices := [pciDevB] }

/-- Scenario C host A: 200 MB RAM + 200 MB swap. -/
def hwMemA : HwInfo :=
  { cpus := none, memory := { totalRam := 200000000, totalSwap := 200000000 }, disk := [],
    pciDevices := [] }

/-- Scenario C host B: 100 MB RAM + 200 MB swap. -/
def hwMemB : HwInfo :=
  { cpus := none, memory := { totalRam := 100000000, totalSwap := 200000000 }, disk := [],
    pciDevices := [] }

/-- Host reporting no RAM measurement. -/
def hwNoRam : HwInfo :=
  { cpus := none, memory := { totalRam := 0, totalSwap := 0 }, disk := [], pciDevices := [] }

/-- Manifest requiring 1M of memory with one vendor-only anyof requirement. -/
def manifestAnyVendor : Manifest :=
  { baseManifest with
    memory := some "1M",
    devices := { anyof := [reqVendorOnly], allof := [] } }

/-- Manifest with anyof = (gpu requirement, usb gpu requirement). -/
def manifestAnyUsb : Manifest :=
  { baseManifest with devices := { anyof := [reqGpu, reqUsbGpu], allof := [] } }

/-- Manifest with allof = (vendor-only requirement, bare cpu requirement). -/
def manifestAllMixed : Manifest :=
  { baseManifest with devices := { anyof := [], allof := [reqVendorOnly, reqCpuAny] } }

/-- Manifest with allof = (Intel-pinned cpu requirement). -/
def manifestAllIntel : Manifest :=
  { baseManifest with devices := { anyof := [], allof := [reqCpuIntel] } }

/-- Manifest with anyof = (gpu requirement, npu requirement). -/
def manifestAnyGpuNpu : Manifest :=
  { baseManifest with devices := { anyof := [reqGpu, reqNpu], allof := [] } }

/-- Manifest requiring 300M of memory (scenario C). -/
def manifest300M : Manifest := { baseManifest with memory := some "300M" }

/-- Manifest requiring 1M of memory, nothing else. -/
def manifest1M : Manifest := { baseManifest with memory := some "1M" }

/-- A stable scored manifest with score 3. -/
def smStable : ScoredManifest :=
  { manifest := baseManifest, score := 3, compatible := true, compatibilityIssues := [] }

/-- A devel-grade scored manifest with the top score 9. -/
def smDevel : ScoredManifest :=
  { manifest := { baseManifest with name := "devel-engine", grade := "devel" }, score := 9,
    compatible := true, compatibilityIssues := [] }

/-- The identity stand-in for `sort.Slice` used by witnesses: trivially a
permutation. -/
def sortSliceId : SortSliceImpl := fun l _ => l

/-- The allof contribution pair computed inside `checkEngine` (the group is
only consulted when non-empty). -/
def engineAllR (snap : SnapPredicate) (hw : HwInfo) (m : Manifest) : Int × List String :=
  if m.devices.allof.length > 0 then checkDevicesAll snap hw m.devices.allof else (0, [])

/-- The anyof contribution pair computed inside `checkEngine`. -/
def engineAnyR (snap : SnapPredicate) (hw : HwInfo) (m : Manifest) : Int × List String :=
  if m.devices.anyof.length > 0 then checkDevicesAny snap hw m.devices.anyof else (0, [])

/-- The measurement-missing condition of one manifest against one snapshot:
a declared memory requirement with `TotalRam` reported 0, or a declared disk
requirement with no measurement at the storage path key. -/
def measurementMissing (hw : HwInfo) (m : Manifest) : Prop :=
  (m.memory ≠ none ∧ hw.memory.totalRam = 0) ∨
    (m.diskSpace ≠ none ∧ lookupStr hw.disk SnapStoragePath = none)

/-- The `ScoredManifest` that scoring `baseManifest` (no requirements)
produces: score 0, hence not compatible. -/
def smZeroScored : ScoredManifest :=
  { manifest := baseManifest, score := 0, compatible := false, compatibilityIssues := [] }

lemma requiredStringsFold_fst_le (hostValues : List String) (msg : String → String)
    (l : List String) (init : Int × List String) :
    init.1 ≤ (requiredStringsFold hostValues msg init l).1 := by
  induction l generalizing init with
  | nil => simp [requiredStringsFold]
  | cons v rest ih =>
    by_cases h : hostValues.contains v
    · simp only [requiredStringsFold, h, if_pos]
      calc init.1 ≤ init.1 + weights.CpuFlag := by simp [weights.CpuFlag]
        _ ≤ _ := ih _
    · simp only [requiredStringsFold, h, Bool.false_eq_true, if_neg, not_false_iff]
      exact ih _

lemma checkCpuAmd64_fst_nonneg (d : Device) (c : CpuInfo) : 0 ≤ (checkCpuAmd64 d c).1 := by
  have hfl := requiredStringsFold_fst_le c.flags (fun flag => "flag " ++ flag ++ " missing")
      (d.flags.getD []) (0, [])
  simp only at hfl
  unfold checkCpuAmd64
  split
  · cases hm : d.manufacturerId <;> dsimp only <;> (try split_ifs) <;>
      (try simp only [weights.CpuVendor]) <;> omega
  · simp

lemma checkCpuArm64_fst_nonneg (d : Device) (c : CpuInfo) : 0 ≤ (checkCpuArm64 d c).1 := by
  have hft := requiredStringsFold_fst_le c.features
      (fun feature => "feature not found: " ++ feature) (d.features.getD []) (0, [])
  simp only at hft
  unfold checkCpuArm64
  split
  · cases hi : d.implementerId <;> cases hp : d.partNumber <;> dsimp only <;>
      (try split_ifs) <;> (try simp only [weights.CpuVendor, weights.CpuModel]) <;> omega
  · simp

lemma checkCpu_fst_nonneg (d : Device) (c : CpuInfo) : 0 ≤ (checkCpu d c).1 := by
  have h1 := checkCpuAmd64_fst_nonneg d c
  have h2 := checkCpuArm64_fst_nonneg d c
  unfold checkCpu
  dsimp only
  split
  · simp
  · simp only [weights.CpuDevice]; omega

lemma cpuMatchLoop_fst_nonneg (d : Device) (n : Nat) (acc : Int × List String)
    (h : 0 ≤ acc.1) (l : List (Nat × CpuInfo)) : 0 ≤ (cpuMatchLoop d n acc l).1 := by
  induction l generalizing acc with
  | nil => simpa [cpuMatchLoop] using h
  | cons icpu rest ih =>
    simp only [cpuMatchLoop]
    split
    · split <;> exact ih _ h
    · split
      · next hgt => exact ih _ (le_of_lt (lt_of_le_of_lt h hgt))
      · exact ih _ h

lemma cpuMatch_fst_nonneg (d : Device) (cs : Option (List CpuInfo)) : 0 ≤ (cpuMatch d cs).1 := by
  unfold cpuMatch
  exact cpuMatchLoop_fst_nonneg _ _ _ (by simp) _

lemma maxPciScore_nonneg (m : Int) (h : 0 ≤ m) (l : List PciDevice) : 0 ≤ maxPciScore m l := by
  induction l generalizing m with
  | nil => simpa [maxPciScore] using h
  | cons p rest ih =>
    simp only [maxPciScore]
    split
    · next hgt => exact ih _ (le_of_lt (lt_of_le_of_lt h hgt))
    · exact ih _ h

lemma pciMatch_fst_nonneg (snap : SnapPredicate) (d : Device) (l : List PciDevice) :
    0 ≤ (pciMatch snap d l).1 := by
  unfold pciMatch
  split
  · simp
  · dsimp only
    split <;> exact maxPciScore_nonneg 0 le_rfl _

lemma deviceMatch_fst_nonneg (snap : SnapPredicate) (hw : HwInfo) (d : Device) :
    0 ≤ (deviceMatch snap hw d).1 := by
  unfold deviceMatch
  split
  · exact cpuMatch_fst_nonneg _ _
  · split
    · exact pciMatch_fst_nonneg _ _ _
    · simp

lemma allofStep_eq (snap : SnapPredicate) (hw : HwInfo) (c : Bool) (s : Int)
    (is : List String) (d : Device) :
    allofStep snap hw (c, s, is) d =
      (c && allofOk snap hw d,
       s + (if deviceFound snap hw d then (deviceMatch snap hw d).1 else 0),
       is ++ allofIssueMsg snap hw d) := by
  by_cases hcpu : d.type = "cpu"
  · cases hml : (cpuMatch d hw.cpus).2 <;>
      simp [allofStep, allofOk, allofIssueMsg, deviceFound, deviceNoIssues, deviceMatch,
        isCpuReq, isUsbReq, isPciReq, hcpu, hml]
  · by_cases husb : d.bus = "usb"
    · simp [allofStep, allofOk, allofIssueMsg, deviceFound, deviceNoIssues, deviceMatch,
        isCpuReq, isUsbReq, isPciReq, hcpu, husb]
    · by_cases hbus : d.bus = "" ∨ d.bus = "pci"
      · cases hml : (pciMatch snap d hw.pciDevices).2 <;>
          simp [allofStep, allofOk, allofIssueMsg, deviceFound, deviceNoIssues, deviceMatch,
            isCpuReq, isUsbReq, isPciReq, hcpu, husb, hbus, hml]
      · simp [allofStep, allofOk, allofIssueMsg, deviceFound, deviceNoIssues, deviceMatch,
          isCpuReq, isUsbReq, isPciReq, hcpu, husb, hbus]

lemma anyofStep_eq (snap : SnapPredicate) (hw : HwInfo) (c : Bool) (s : Int) (f : Nat)
    (is : List String) (d : Device) :
    anyofStep snap hw (c, s, f, is) d =
      (c && !(isUsbReq d),
       s + (if deviceFound snap hw d then (deviceMatch snap hw d).1 else 0),
       f + (if deviceFound snap hw d then 1 else 0),
       is ++ anyofIssueMsg d) := by
  by_cases hcpu : d.type = "cpu"
  · cases hml : (cpuMatch d hw.cpus).2 <;>
      simp [anyofStep, anyofIssueMsg, deviceFound, deviceNoIssues, deviceMatch,
        isCpuReq, isUsbReq, isPciReq, hcpu, hml]
  · by_cases husb : d.bus = "usb"
    · simp [anyofStep, anyofIssueMsg, deviceFound, deviceNoIssues, deviceMatch,
        isCpuReq, isUsbReq, isPciReq, hcpu, husb]
    · by_cases hbus : d.bus = "" ∨ d.bus = "pci"
      · cases hml : (pciMatch snap d hw.pciDevices).2 <;>
          simp [anyofStep, anyofIssueMsg, deviceFound, deviceNoIssues, deviceMatch,
            isCpuReq, isUsbReq, isPciReq, hcpu, husb, hbus, hml]
      · simp [anyofStep, anyofIssueMsg, deviceFound, deviceNoIssues, deviceMatch,
          isCpuReq, isUsbReq, isPciReq, hcpu, husb, hbus]

lemma foundScoreSum_cons (snap : SnapPredicate) (hw : HwInfo) (d : Device) (rest : List Device) :
    foundScoreSum snap hw (d :: rest) =
      (if deviceFound snap hw d then (deviceMatch snap hw d).1 else 0) +
        foundScoreSum snap hw rest := by
  by_cases h : deviceFound snap hw d <;> simp [foundScoreSum, List.filter_cons, h]

lemma foundScoreSum_nonneg (snap : SnapPredicate) (hw : HwInfo) (ds : List Device) :
    0 ≤ foundScoreSum snap hw ds := by
  induction ds with
  | nil => simp [foundScoreSum]
  | cons d rest ih =>
    rw [foundScoreSum_cons]
    have := deviceMatch_fst_nonneg snap hw d
    split <;> omega

lemma allof_foldl_eq (snap : SnapPredicate) (hw : HwInfo) (ds : List Device)
    (c : Bool) (s : Int) (is : List String) :
    ds.foldl (allofStep snap hw) (c, s, is) =
      (c && ds.all (allofOk snap hw),
       s + foundScoreSum snap hw ds,
       is ++ (ds.map (allofIssueMsg snap hw)).flatten) := by
  induction ds generalizing c s is with
  | nil => simp [foundScoreSum]
  | cons d rest ih =>
    rw [List.foldl_cons, allofStep_eq, ih, foundScoreSum_cons]
    simp [Bool.and_assoc, add_assoc]

lemma anyof_foldl_eq (snap : SnapPredicate) (hw : HwInfo) (ds : List Device)
    (c : Bool) (s : Int) (f : Nat) (is : List String) :
    ds.foldl (anyofStep snap hw) (c, s, f, is) =
      (c && ds.all (fun d => !(isUsbReq d)),
       s + foundScoreSum snap hw ds,
       f + ds.countP (deviceFound snap hw),
       is ++ (ds.map anyofIssueMsg).flatten) := by
  induction ds generalizing c s f is with
  | nil => simp [foundScoreSum]
  | cons d rest ih =>
    rw [List.foldl_cons, anyofStep_eq, ih, foundScoreSum_cons]
    by_cases h : deviceFound snap hw d <;>
      simp [Bool.and_assoc, add_assoc, List.countP_cons, h] <;> omega

lemma checkDevicesAll_eq (snap : SnapPredicate) (hw : HwInfo) (ds : List Device) :
    checkDevicesAll snap hw ds =
      ((if ds.all (allofOk snap hw) then foundScoreSum snap hw ds else 0),
       (ds.map (allofIssueMsg snap hw)).flatten) := by
  unfold checkDevicesAll
  rw [allof_foldl_eq]
  by_cases h : ds.all (allofOk snap hw) <;> simp [h]

lemma allofIssueMsg_nil_iff (snap : SnapPredicate) (hw : HwInfo) (d : Device) :
    allofIssueMsg snap hw d = [] ↔ allofOk snap hw d = true := by
  unfold allofIssueMsg allofOk
  by_cases hcpu : isCpuReq d <;> by_cases husb : isUsbReq d <;>
    by_cases hpci : isPciReq d <;> by_cases hni : deviceNoIssues snap hw d <;>
    simp_all [isCpuReq, isUsbReq, isPciReq]

lemma checkDevicesAll_issues_nil_iff (snap : SnapPredicate) (hw : HwInfo) (ds : List Device) :
    (checkDevicesAll snap hw ds).2 = [] ↔ ∀ d ∈ ds, allofOk snap hw d = true := by
  rw [checkDevicesAll_eq]
  simp [List.flatten_eq_nil_iff, allofIssueMsg_nil_iff]

lemma checkDevicesAny_eq (snap : SnapPredicate) (hw : HwInfo) (ds : List Device) :
    checkDevicesAny snap hw ds =
      ((if (ds.all (fun d => !(isUsbReq d)) = true ∧
            ¬(ds.length > 0 ∧ ds.countP (deviceFound snap hw) = 0))
        then foundScoreSum snap hw ds else 0),
       (ds.map anyofIssueMsg).flatten ++
         (if ds.length > 0 ∧ ds.countP (deviceFound snap hw) = 0
          then ["required device not found"] else [])) := by
  unfold checkDevicesAny
  rw [anyof_foldl_eq]
  dsimp only
  simp only [Bool.true_and, Nat.zero_add, zero_add, List.nil_append]
  by_cases hC : ds.length > 0 ∧ ds.countP (deviceFound snap hw) = 0
  · have hno : ¬((ds.all (fun d => !(isUsbReq d)) = true) ∧
        ¬(ds.length > 0 ∧ ds.countP (deviceFound snap hw) = 0)) := fun hAnd => hAnd.2 hC
    rw [if_pos hC]
    dsimp only
    rw [if_neg hno, if_pos hC]
    simp
  · by_cases hU : ds.all (fun d => !(isUsbReq d)) = true
    · have hyes : (ds.all (fun d => !(isUsbReq d)) = true) ∧
          ¬(ds.length > 0 ∧ ds.countP (deviceFound snap hw) = 0) := And.intro hU hC
      have hnn : ¬¬(ds.all (fun d => !(isUsbReq d)) = true) := fun hn => hn hU
      rw [if_neg hC]
      dsimp only
      rw [if_neg hnn, if_pos hyes, if_neg hC]
      simp
    · have hno : ¬((ds.all (fun d => !(isUsbReq d)) = true) ∧
          ¬(ds.length > 0 ∧ ds.countP (deviceFound snap hw) = 0)) := fun hAnd => hU hAnd.1
      rw [if_neg hC]
      dsimp only
      rw [if_pos hU, if_neg hno, if_neg hC]
      simp

lemma anyofIssueMsg_nil_iff (d : Device) : anyofIssueMsg d = [] ↔ isUsbReq d = false := by
  unfold anyofIssueMsg
  by_cases h : isUsbReq d <;> simp [h]

lemma checkDevicesAny_issues_nil_iff (snap : SnapPredicate) (hw : HwInfo) (ds : List Device)
    (hne : ds ≠ []) :
    (checkDevicesAny snap hw ds).2 = [] ↔
      ((∀ d ∈ ds, isUsbReq d = false) ∧ ∃ d ∈ ds, deviceFound snap hw d = true) := by
  rw [checkDevicesAny_eq]
  have hlen : 0 < ds.length := List.length_pos.mpr hne
  simp [hlen, anyofIssueMsg_nil_iff, List.flatten_eq_nil_iff, List.countP_eq_zero]

lemma checkDevicesAny_score_of_nil (snap : SnapPredicate) (hw : HwInfo) (ds : List Device)
    (hne : ds ≠ []) (h : (checkDevicesAny snap hw ds).2 = []) :
    (checkDevicesAny snap hw ds).1 = foundScoreSum snap hw ds := by
  have hiff := (checkDevicesAny_issues_nil_iff snap hw ds hne).mp h
  rw [checkDevicesAny_eq]
  dsimp only
  rw [if_pos]
  constructor
  · simp only [List.all_eq_true]
    intro d hd
    simp [hiff.1 d hd]
  · rintro ⟨hl, hc⟩
    rcases hiff.2 with ⟨d, hd, hfound⟩
    have := List.countP_eq_zero.mp hc d hd
    simp [hfound] at this

lemma checkDevicesAll_nil (snap : SnapPredicate) (hw : HwInfo) :
    checkDevicesAll snap hw [] = (0, []) := by
  simp [checkDevicesAll]

lemma checkDevicesAny_nil (snap : SnapPredicate) (hw : HwInfo) :
    checkDevicesAny snap hw [] = (0, []) := by
  simp [checkDevicesAny]

lemma checkDevicesAll_fst_nonneg (snap : SnapPredicate) (hw : HwInfo) (ds : List Device) :
    0 ≤ (checkDevicesAll snap hw ds).1 := by
  rw [checkDevicesAll_eq]
  dsimp only
  split
  · exact foundScoreSum_nonneg snap hw ds
  · exact le_rfl

lemma checkDevicesAny_fst_nonneg (snap : SnapPredicate) (hw : HwInfo) (ds : List Device) :
    0 ≤ (checkDevicesAny snap hw ds).1 := by
  rw [checkDevicesAny_eq]
  dsimp only
  split
  · exact foundScoreSum_nonneg snap hw ds
  · exact le_rfl

lemma checkEngineMemory_ok_nonneg (hw : HwInfo) (m : Manifest) (t : Int × List String × Bool)
    (h : checkEngineMemory hw m = Except.ok t) : 0 ≤ t.1 := by
  unfold checkEngineMemory at h
  cases hm : m.memory with
  | none => rw [hm] at h; simp at h; simp [← h]
  | some s =>
    rw [hm] at h
    dsimp only at h
    cases hp : StringToBytes s with
    | error e => rw [hp] at h; simp at h
    | ok v =>
      rw [hp] at h
      dsimp only at h
      split at h
      · simp at h
      · split at h <;> simp at h <;> simp [← h]

lemma checkEngineDisk_ok_nonneg (hw : HwInfo) (m : Manifest) (t : Int × List String × Bool)
    (h : checkEngineDisk hw m = Except.ok t) : 0 ≤ t.1 := by
  unfold checkEngineDisk at h
  cases hm : m.diskSpace with
  | none => rw [hm] at h; simp at h; simp [← h]
  | some s =>
    rw [hm] at h
    dsimp only at h
    cases hp : StringToBytes s with
    | error e => rw [hp] at h; simp at h
    | ok v =>
      rw [hp] at h
      dsimp only at h
      cases hl : lookupStr hw.disk SnapStoragePath with
      | none => rw [hl] at h; simp at h
      | some stats =>
        rw [hl] at h
        dsimp only at h
        split at h <;> simp at h <;> simp [← h]

lemma checkEngine_ok_inv (snap : SnapPredicate) (hw : HwInfo) (m : Manifest)
    (s : Int) (rs : List String) (h : checkEngine snap hw m = Except.ok (s, rs)) :
    ∃ mem dsk,
      checkEngineMemory hw m = Except.ok mem ∧ checkEngineDisk hw m = Except.ok dsk ∧
      s = (if (mem.2.2 && dsk.2.2 && (engineAllR snap hw m).2.isEmpty
              && (engineAnyR snap hw m).2.isEmpty) then
             mem.1 + dsk.1
               + (if (engineAllR snap hw m).2.isEmpty then (engineAllR snap hw m).1 else 0)
               + (if (engineAnyR snap hw m).2.isEmpty then (engineAnyR snap hw m).1 else 0)
           else 0) ∧
      rs = mem.2.1 ++ dsk.2.1 ++ (engineAllR snap hw m).2 ++ (engineAnyR snap hw m).2 := by
  unfold checkEngine at h
  cases hm : checkEngineMemory hw m with
  | error e => rw [hm] at h; simp at h
  | ok mem =>
    cases hd : checkEngineDisk hw m with
    | error e => rw [hm, hd] at h; simp at h
    | ok dsk =>
      rw [hm, hd] at h
      dsimp only at h
      refine ⟨mem, dsk, rfl, rfl, ?_, ?_⟩ <;>
        simp only [Except.ok.injEq, Prod.mk.injEq] at h <;>
        unfold engineAllR engineAnyR
      · exact h.1.symm
      · exact h.2.symm

lemma engineAllR_twosided (snap : SnapPredicate) (hw : HwInfo) (m : Manifest)
    (hbad : (checkDevicesAll snap hw m.devices.allof).2 ≠ []) :
    (engineAllR snap hw m).2.isEmpty = false := by
  unfold engineAllR
  have hlen : m.devices.allof.length > 0 := by
    cases hds : m.devices.allof with
    | nil => rw [hds] at hbad; rw [checkDevicesAll_nil] at hbad; simp at hbad
    | cons a l => simp [hds]
  rw [if_pos hlen]
  cases hne : (checkDevicesAll snap hw m.devices.allof).2 with
  | nil => exact absurd hne hbad
  | cons x xs => simp

lemma engineAnyR_twosided (snap : SnapPredicate) (hw : HwInfo) (m : Manifest)
    (hbad : (checkDevicesAny snap hw m.devices.anyof).2 ≠ []) :
    (engineAnyR snap hw m).2.isEmpty = false := by
  unfold engineAnyR
  have hlen : m.devices.anyof.length > 0 := by
    cases hds : m.devices.anyof with
    | nil => rw [hds] at hbad; rw [checkDevicesAny_nil] at hbad; simp at hbad
    | cons a l => simp [hds]
  rw [if_pos hlen]
  cases hne : (checkDevicesAny snap hw m.devices.anyof).2 with
  | nil => exact absurd hne hbad
  | cons x xs => simp

lemma checkEngine_group_issues_zero (snap : SnapPredicate) (hw : HwInfo) (m : Manifest)
    (s : Int) (rs : List String) (h : checkEngine snap hw m = Except.ok (s, rs))
    (hbad : (checkDevicesAll snap hw m.devices.allof).2 ≠ [] ∨
            (checkDevicesAny snap hw m.devices.anyof).2 ≠ []) : s = 0 := by
  obtain ⟨mem, dsk, hm, hd, hs, -⟩ := checkEngine_ok_inv snap hw m s rs h
  rcases hbad with hb | hb
  · rw [engineAllR_twosided snap hw m hb] at hs
    simpa using hs
  · rw [engineAnyR_twosided snap hw m hb] at hs
    simpa using hs

lemma checkEngine_ok_nonneg (snap : SnapPredicate) (hw : HwInfo) (m : Manifest)
    (s : Int) (rs : List String) (h : checkEngine snap hw m = Except.ok (s, rs)) : 0 ≤ s := by
  obtain ⟨mem, dsk, hm, hd, hs, -⟩ := checkEngine_ok_inv snap hw m s rs h
  have h1 := checkEngineMemory_ok_nonneg hw m mem hm
  have h2 := checkEngineDisk_ok_nonneg hw m dsk hd
  have h3 : 0 ≤ (engineAllR snap hw m).1 := by
    unfold engineAllR; split
    · exact checkDevicesAll_fst_nonneg snap hw _
    · exact le_rfl
  have h4 : 0 ≤ (engineAnyR snap hw m).1 := by
    unfold engineAnyR; split
    · exact checkDevicesAny_fst_nonneg snap hw _
    · exact le_rfl
  rw [hs]
  split
  · split <;> split <;> omega
  · exact le_rfl

lemma checkEngine_memory_missing (snap : SnapPredicate) (hw : HwInfo) (m : Manifest)
    (hmem : m.memory ≠ none) (hram : hw.memory.totalRam = 0) :
    ∃ e, checkEngine snap hw m = Except.error e := by
  cases hm : m.memory with
  | none => exact absurd hm hmem
  | some str =>
    have hcm : ∃ e, checkEngineMemory hw m = Except.error e := by
      unfold checkEngineMemory
      rw [hm]
      dsimp only
      cases hp : StringToBytes str with
      | error e => exact ⟨_, rfl⟩
      | ok v =>
        dsimp only
        rw [if_pos hram]
        exact ⟨_, rfl⟩
    obtain ⟨e, he⟩ := hcm
    refine ⟨e, ?_⟩
    unfold checkEngine
    rw [he]

lemma checkEngine_disk_missing (snap : SnapPredicate) (hw : HwInfo) (m : Manifest)
    (hdisk : m.diskSpace ≠ none) (hlk : lookupStr hw.disk SnapStoragePath = none) :
    ∃ e, checkEngine snap hw m = Except.error e := by
  cases hm : m.diskSpace with
  | none => exact absurd hm hdisk
  | some str =>
    cases hmem : checkEngineMemory hw m with
    | error e =>
      refine ⟨e, ?_⟩
      unfold checkEngine
      rw [hmem]
    | ok mem =>
      have hcd : ∃ e, checkEngineDisk hw m = Except.error e := by
        unfold checkEngineDisk
        rw [hm]
        dsimp only
        cases hp : StringToBytes str with
        | error e => exact ⟨_, rfl⟩
        | ok v =>
          dsimp only
          rw [hlk]
          exact ⟨_, rfl⟩
      obtain ⟨e, he⟩ := hcd
      refine ⟨e, ?_⟩
      unfold checkEngine
      rw [hmem, he]

lemma measurementMissing_checkEngine (snap : SnapPredicate) (hw : HwInfo) (m : Manifest)
    (h : measurementMissing hw m) : ∃ e, checkEngine snap hw m = Except.error e := by
  rcases h with ⟨h1, h2⟩ | ⟨h1, h2⟩
  · exact checkEngine_memory_missing snap hw m h1 h2
  · exact checkEngine_disk_missing snap hw m h1 h2

lemma checkDevicesAll_score_of_nil (snap : SnapPredicate) (hw : HwInfo) (ds : List Device)
    (h : (checkDevicesAll snap hw ds).2 = []) :
    (checkDevicesAll snap hw ds).1 = foundScoreSum snap hw ds := by
  have hall := (checkDevicesAll_issues_nil_iff snap hw ds).mp h
  rw [checkDevicesAll_eq]
  dsimp only
  rw [if_pos (List.all_eq_true.mpr hall)]

/-- C2 (amended): for a manifest with a non-empty allof group, the group is
issue-free exactly when every requirement passes `allofOk` (no usb
requirement, and any cpu/pci matcher it reaches reports no issues); an
issue-free group's score is the sum of the found requirements' matcher scores
(a requirement can be found with score 0, so a zero-scoring requirement does
not by itself zero the group); and whenever the group reports any issue the
whole manifest's engine score is exactly 0 — no partial credit. -/
theorem c2_allof_gate_amended (snap : SnapPredicate) (hw : HwInfo) (m : Manifest)
    (_hne : m.devices.allof ≠ []) :
    ((checkDevicesAll snap hw m.devices.allof).2 = [] ↔
      ∀ d ∈ m.devices.allof, allofOk snap hw d = true) ∧
    ((checkDevicesAll snap hw m.devices.allof).2 = [] →
      (checkDevicesAll snap hw m.devices.allof).1 = foundScoreSum snap hw m.devices.allof) ∧
    (∀ s rs, checkEngine snap hw m = Except.ok (s, rs) →
      (checkDevicesAll snap hw m.devices.allof).2 ≠ [] → s = 0) := by
  refine ⟨checkDevicesAll_issues_nil_iff snap hw _, checkDevicesAll_score_of_nil snap hw _,
    fun s rs h hbad => checkEngine_group_issues_zero snap hw m s rs h (Or.inl hbad)⟩

/-- C2 witness: concrete instance of the amended allof semantics. -/
theorem c2_allof_gate_amended_witness :
    (checkDevicesAll snapAllConnected hwCpuPci manifestAllMixed.devices.allof).1 =
      foundScoreSum snapAllConnected hwCpuPci manifestAllMixed.devices.allof ∧
    (0 : Int) = 0 := by
  constructor
  · exact (c2_allof_gate_amended snapAllConnected hwCpuPci manifestAllMixed
      (by decide)).2.1 (by decide)
  · exact (c2_allof_gate_amended snapAllConnected hwTwoCpus manifestAllIntel
      (by decide)).2.2 0 ["required cpu device not found"] (by decide) (by decide)

/-- C2 counterexample: (i) a vendor-only requirement that matches an
integrated device scores 0 without issues, yet the allof group still
contributes the other requirement's 10 points — not exactly 0 as claimed;
(ii) an Intel-pinned cpu requirement scores 16 > 0 on a two-CPU host, yet the
manifest scores 0 because the non-matching CPU produced issues — so "every
requirement scores > 0" does not imply the scores are summed. -/
theorem c2_allof_gate_counterexample :
    ((deviceMatch snapAllConnected hwCpuPci reqVendorOnly).1 = 0 ∧
     manifestAllMixed.devices.allof = [reqVendorOnly, reqCpuAny] ∧
     checkEngine snapAllConnected hwCpuPci manifestAllMixed = Except.ok (10, [])) ∧
    ((deviceMatch snapAllConnected hwTwoCpus reqCpuIntel).1 = 16 ∧
     manifestAllIntel.devices.allof = [reqCpuIntel] ∧
     checkEngine snapAllConnected hwTwoCpus manifestAllIntel =
       Except.ok (0, ["required cpu device not found"])) := by
  decide

/-- C1 (amended): for a manifest with a non-empty anyof group, the group is
issue-free exactly when it contains no usb requirement and at least one
requirement is found (matches with no issues; its score may be 0); an
issue-free group's contribution is the sum of every found requirement's
matcher score; and whenever the group reports an issue (any usb requirement,
or no requirement found) the manifest's engine score is exactly 0. -/
theorem c1_anyof_sum_amended (snap : SnapPredicate) (hw : HwInfo) (m : Manifest)
    (hne : m.devices.anyof ≠ []) :
    ((checkDevicesAny snap hw m.devices.anyof).2 = [] ↔
      ((∀ d ∈ m.devices.anyof, isUsbReq d = false) ∧
        ∃ d ∈ m.devices.anyof, deviceFound snap hw d = true)) ∧
    ((checkDevicesAny snap hw m.devices.anyof).2 = [] →
      (checkDevicesAny snap hw m.devices.anyof).1 =
        foundScoreSum snap hw m.devices.anyof) ∧
    (∀ s rs, checkEngine snap hw m = Except.ok (s, rs) →
      (checkDevicesAny snap hw m.devices.anyof).2 ≠ [] → s = 0) := by
  refine ⟨checkDevicesAny_issues_nil_iff snap hw _ hne,
    checkDevicesAny_score_of_nil snap hw _ hne,
    fun s rs h hbad => checkEngine_group_issues_zero snap hw m s rs h (Or.inr hbad)⟩

/-- C1 witness: concrete instance of the amended anyof semantics. -/
theorem c1_anyof_sum_amended_witness :
    (checkDevicesAny snapAllConnected hwTwoCpus manifestAnyGpuNpu.devices.anyof).1 =
      foundScoreSum snapAllConnected hwTwoCpus manifestAnyGpuNpu.devices.anyof ∧
    (0 : Int) = 0 := by
  constructor
  · exact (c1_anyof_sum_amended snapAllConnected hwTwoCpus manifestAnyGpuNpu
      (by decide)).2.1 (by decide)
  · exact (c1_anyof_sum_amended snapAllConnected hwTwoCpus manifestAnyUsb
      (by decide)).2.2 0 ["usb device matching not implemented"] (by decide) (by decide)

/-- C1 counterexample: (i) with anyof = [gpu, usb-gpu] the gpu requirement
individually scores 60 > 0, yet the manifest scores 0 because the usb
requirement poisons the group — the passing scores are not summed; (ii) with
anyof = [vendor-only] the lone requirement scores 0 (not > 0), yet the
manifest scores 1 from its memory point — it does not score 0 as claimed. -/
theorem c1_anyof_sum_counterexample :
    ((deviceMatch snapAllConnected hwTwoCpus reqGpu).1 = 60 ∧
     manifestAnyUsb.devices.anyof = [reqGpu, reqUsbGpu] ∧
     checkEngine snapAllConnected hwTwoCpus manifestAnyUsb =
       Except.ok (0, ["usb device matching not implemented"])) ∧
    ((deviceMatch snapAllConnected hwIntegrated reqVendorOnly).1 = 0 ∧
     manifestAnyVendor.devices.anyof = [reqVendorOnly] ∧
     checkEngine snapAllConnected hwIntegrated manifestAnyVendor = Except.ok (1, [])) := by
  decide

/-- C3: for any permutation-respecting `sort.Slice` implementation,
`TopEngine` returns a manifest with `Score > 0` and grade `stable` whenever
the input contains one (so a devel-grade manifest is never returned), and
returns the distinct sentinel `ErrorNoCompatibleEngine` — never an
absent/empty result, the `Except` shape forces one or the other — exactly
when no input manifest qualifies (including the empty list and all-zero
lists). -/
theorem c3_topEngine_filter (sortSlice : SortSliceImpl)
    (hperm : ∀ l less, (sortSlice l less).Perm l) (scoredEngines : List ScoredManifest) :
    ((∃ sm ∈ scoredEngines, 0 < sm.score ∧ sm.manifest.grade = "stable") →
      ∃ sm, TopEngine sortSlice scoredEngines = Except.ok sm ∧ 0 < sm.score ∧
        sm.manifest.grade = "stable") ∧
    (TopEngine sortSlice scoredEngines = Except.error ErrorNoCompatibleEngine ↔
      ¬∃ sm ∈ scoredEngines, 0 < sm.score ∧ sm.manifest.grade = "stable") := by
  unfold TopEngine
  set q := scoredEngines.filter
    (fun e => decide (e.score > 0) && decide (e.manifest.grade = "stable")) with hq
  have hqchar : ∀ sm, sm ∈ q ↔
      sm ∈ scoredEngines ∧ 0 < sm.score ∧ sm.manifest.grade = "stable" := by
    intro sm
    rw [hq, List.mem_filter]
    simp
  by_cases hlen : q.length = 0
  · rw [if_pos hlen]
    have hqnil : q = [] := List.length_eq_zero.mp hlen
    constructor
    · rintro ⟨sm, hmem, hpos, hgr⟩
      exact absurd ((hqchar sm).mpr ⟨hmem, hpos, hgr⟩) (by simp [hqnil])
    · constructor
      · rintro - ⟨sm, hmem, hpos, hgr⟩
        exact absurd ((hqchar sm).mpr ⟨hmem, hpos, hgr⟩) (by simp [hqnil])
      · intro
        rfl
  · rw [if_neg hlen]
    have hperm2 := hperm q topEngineLess
    split
    · next hs =>
      exfalso
      have hlq := hperm2.length_eq
      rw [hs] at hlq
      simp at hlq
      exact hlen hlq.symm
    · next top rest hs =>
      have htop : top ∈ q := by
        rw [hs] at hperm2
        exact hperm2.mem_iff.mp (List.mem_cons_self top rest)
      have hprops := (hqchar top).mp htop
      refine ⟨fun _ => ⟨top, rfl, hprops.2.1, hprops.2.2⟩, ?_, ?_⟩
      · intro habs
        exact absurd habs (by simp)
      · intro hno
        exact absurd ⟨top, hprops.1, hprops.2⟩ hno

/-- C3 witness: the stable score-3 manifest is selected over a devel score-9
manifest, and a devel-only list yields the sentinel. -/
theorem c3_topEngine_filter_witness :
    (∃ sm, TopEngine sortSliceId [smDevel, smStable] = Except.ok sm ∧ 0 < sm.score ∧
      sm.manifest.grade = "stable") ∧
    TopEngine sortSliceId [smDevel] = Except.error ErrorNoCompatibleEngine := by
  constructor
  · exact (c3_topEngine_filter sortSliceId (fun l less => List.Perm.refl l)
      [smDevel, smStable]).1 (by decide)
  · exact (c3_topEngine_filter sortSliceId (fun l less => List.Perm.refl l)
      [smDevel]).2.mpr (by decide)

/-- C7: if any manifest in the batch declares a memory requirement while the
snapshot reports `TotalRam = 0`, or a disk requirement with no measurement at
the storage path key, the whole `ScoreEngines` call returns an error — no
scored manifests at all, and the unmeasured manifest is never scored 0. -/
theorem c7_measurement_missing_aborts (snap : SnapPredicate) (hw : HwInfo)
    (manifests : List Manifest) (h : ∃ m ∈ manifests, measurementMissing hw m) :
    ∃ e, ScoreEngines snap hw manifests = Except.error e := by
  induction manifests with
  | nil => simp at h
  | cons m0 rest ih =>
    rcases h with ⟨m, hm, hmiss⟩
    rcases List.mem_cons.mp hm with rfl | hmrest
    · obtain ⟨e, he⟩ := measurementMissing_checkEngine snap hw m hmiss
      refine ⟨e, ?_⟩
      unfold ScoreEngines
      rw [he]
    · cases hc : checkEngine snap hw m0 with
      | error e =>
        refine ⟨e, ?_⟩
        unfold ScoreEngines
        rw [hc]
      | ok r =>
        obtain ⟨e, he⟩ := ih ⟨m, hmrest, hmiss⟩
        refine ⟨e, ?_⟩
        unfold ScoreEngines
        rw [hc]
        dsimp only
        rw [he]

/-- C7 witness: a two-manifest batch aborts because the second manifest's
memory requirement is unmeasured. -/
theorem c7_measurement_missing_aborts_witness :
    ∃ e, ScoreEngines snapAllConnected hwNoRam [baseManifest, manifest1M] =
      Except.error e := by
  refine c7_measurement_missing_aborts snapAllConnected hwNoRam [baseManifest, manifest1M]
    ⟨manifest1M, by decide, Or.inl (And.intro (by decide) rfl)⟩

/-- C10: every `ScoredManifest` produced by a successful `ScoreEngines` call
has a non-negative score and `Compatible = (Score > 0)`; the score is a pure
function of the manifest, the snapshot and the injected snap-connection
predicate. -/
theorem c10_compatible_iff_positive (snap : SnapPredicate) (hw : HwInfo)
    (manifests : List Manifest) (l : List ScoredManifest)
    (h : ScoreEngines snap hw manifests = Except.ok l) :
    ∀ sm ∈ l, 0 ≤ sm.score ∧ sm.compatible = decide (0 < sm.score) := by
  induction manifests generalizing l with
  | nil =>
    unfold ScoreEngines at h
    simp only [Except.ok.injEq] at h
    subst h
    intro sm hsm
    simp at hsm
  | cons m0 rest ih =>
    unfold ScoreEngines at h
    cases hc : checkEngine snap hw m0 with
    | error e => rw [hc] at h; simp at h
    | ok r =>
      rw [hc] at h
      dsimp only at h
      cases hrest : ScoreEngines snap hw rest with
      | error e => rw [hrest] at h; simp at h
      | ok l2 =>
        rw [hrest] at h
        dsimp only at h
        simp only [Except.ok.injEq] at h
        subst h
        intro sm hsm
        rcases List.mem_cons.mp hsm with rfl | hsm2
        · have hnn : 0 ≤ r.1 := checkEngine_ok_nonneg snap hw m0 r.1 r.2 (by rw [hc])
          refine ⟨hnn, ?_⟩
          dsimp only
          by_cases hz : r.1 = 0
          · simp [hz]
          · rw [if_neg hz]
            have : 0 < r.1 := lt_of_le_of_ne hnn (fun he => hz he.symm)
            simp [this]
        · exact ih l2 hrest sm hsm2

/-- C10 witness: the zero-scored manifest from a concrete batch is reported
incompatible. -/
theorem c10_compatible_iff_positive_witness :
    0 ≤ smZeroScored.score ∧ smZeroScored.compatible = decide (0 < smZeroScored.score) := by
  exact c10_compatible_iff_positive snapAllConnected hwIntegrated [baseManifest]
    [smZeroScored] (by decide) smZeroScored (by decide)

lemma usb_mem_allof_issues (snap : SnapPredicate) (hw : HwInfo) (ds : List Device) (d : Device)
    (hd : d ∈ ds) (husb : isUsbReq d = true) :
    "usb device matching not implemented" ∈ (checkDevicesAll snap hw ds).2 := by
  rw [checkDevicesAll_eq]
  dsimp only
  rw [List.mem_flatten]
  refine ⟨allofIssueMsg snap hw d, List.mem_map_of_mem _ hd, ?_⟩
  have hcpu : isCpuReq d = false := by
    unfold isUsbReq at husb
    rw [Bool.and_eq_true] at husb
    unfold isCpuReq
    simpa using husb.1
  unfold allofIssueMsg
  simp [hcpu, husb]

lemma usb_mem_anyof_issues (snap : SnapPredicate) (hw : HwInfo) (ds : List Device) (d : Device)
    (hd : d ∈ ds) (husb : isUsbReq d = true) :
    "usb device matching not implemented" ∈ (checkDevicesAny snap hw ds).2 := by
  rw [checkDevicesAny_eq]
  dsimp only
  refine List.mem_append_left _ ?_
  rw [List.mem_flatten]
  refine ⟨anyofIssueMsg d, List.mem_map_of_mem _ hd, ?_⟩
  unfold anyofIssueMsg
  simp [husb]

/-- C4 (amended): `usb` is a recognized bus value in the schema switch, but
`validateBus` unconditionally rejects it with "usb device validation not
implemented" — a usb requirement never validates; independently, the
matching step also fails every (non-cpu-typed) usb requirement in either
device group with the explicit "usb device matching not implemented" issue
rather than silently ignoring it. -/
theorem c4_usb_rejected_amended (d : Device) (hbus : d.bus = "usb") :
    (∀ extraFields, validateBus d extraFields =
      Except.error "usb device validation not implemented") ∧
    (d.type ≠ "cpu" → ∀ (snap : SnapPredicate) (hw : HwInfo) (ds : List Device), d ∈ ds →
      "usb device matching not implemented" ∈ (checkDevicesAll snap hw ds).2 ∧
      "usb device matching not implemented" ∈ (checkDevicesAny snap hw ds).2) := by
  constructor
  · intro extraFields
    simp [validateBus, validateUsb, hbus]
  · intro htype snap hw ds hd
    have husb : isUsbReq d = true := by
      unfold isUsbReq
      simp [htype, hbus]
    exact ⟨usb_mem_allof_issues snap hw ds d hd husb,
      usb_mem_anyof_issues snap hw ds d hd husb⟩

/-- C4 witness: a usb gpu requirement fails bus validation and produces the
not-implemented matching issue. -/
theorem c4_usb_rejected_amended_witness :
    validateBus reqUsbGpu [] = Except.error "usb device validation not implemented" ∧
    "usb device matching not implemented" ∈
      (checkDevicesAll snapAllConnected hwTwoCpus [reqUsbGpu]).2 := by
  constructor
  · exact (c4_usb_rejected_amended reqUsbGpu rfl).1 []
  · exact ((c4_usb_rejected_amended reqUsbGpu rfl).2 (by decide) snapAllConnected hwTwoCpus
      [reqUsbGpu] (by decide)).1

/-- C4 counterexample: schema validation does NOT accept a usb requirement —
`Device.validate` on a gpu requirement with bus usb returns an error at
validation time, contradicting "usb is a legal bus value at load time". -/
theorem c4_usb_rejected_counterexample :
    deviceValidate reqUsbGpu =
      Except.error "gpu: gpu: usb device validation not implemented" ∧
    isError (deviceValidate reqUsbGpu) = true := by
  decide

/-- C5 (amended): the PCI filtering stage keeps a device iff the
requirement's vendor-id is unset, or it equals the device's vendor-id and the
device-id is unset or equal; device-id is compared only inside the
matching-vendor branch, so a requirement with device-id set but vendor-id
unset keeps every device — the device-id is ignored entirely, it does not
restrict to devices with that device-id. -/
theorem c5_pci_filter (pciDevices : List PciDevice) (vendorId deviceId : Option Nat)
    (d : PciDevice) :
    d ∈ filterPciDevices pciDevices vendorId deviceId ↔
      d ∈ pciDevices ∧
        (vendorId = none ∨
          (vendorId = some d.vendorId ∧
            (deviceId = none ∨ deviceId = some d.deviceId))) := by
  unfold filterPciDevices
  rw [List.mem_filter]
  have hinc : (includePciDevice vendorId deviceId d = true) ↔
      (vendorId = none ∨
        (vendorId = some d.vendorId ∧ (deviceId = none ∨ deviceId = some d.deviceId))) := by
    unfold includePciDevice
    cases vendorId with
    | none => simp
    | some v =>
      cases deviceId with
      | none => by_cases hv : v = d.vendorId <;> simp [hv]
      | some i =>
        by_cases hv : v = d.vendorId <;> by_cases hi : i = d.deviceId <;> simp [hv, hi]
  rw [hinc]

/-- C5 counterexample: with vendor-id unset and device-id 0x1234, the filter
keeps a device whose device-id is 0x9999 — not only devices with the
requested device-id. -/
theorem c5_pci_filter_counterexample :
    pciDevA.deviceId = 0x9999 ∧ (0x9999 : Nat) ≠ 0x1234 ∧
    filterPciDevices [pciDevA] none (some 0x1234) = [pciDevA] := by
  decide

/-- C8 (amended): a declared compute-capability requirement routes the device
through the additional-properties step, but only VRAM is actually validated —
the compute-capability check is a TODO in the source, so the field's value
(present or absent on the device) never changes the score or the issues. -/
theorem c8_compute_capability_ignored (snap : SnapPredicate) (d : Device) (p : PciDevice)
    (c : Option String) :
    scorePciDevice snap { d with computeCapability := c } p =
      scorePciDevice snap { d with computeCapability := none } p := by
  have hprops : (if hasAdditionalProperties { d with computeCapability := c } then
        checkProperties { d with computeCapability := c } p else Except.ok 0) =
      (if hasAdditionalProperties { d with computeCapability := none } then
        checkProperties { d with computeCapability := none } p else Except.ok 0) := by
    unfold hasAdditionalProperties checkProperties checkVram
    dsimp only
    cases hv : d.vram <;> cases c <;> simp
  unfold scorePciDevice
  dsimp only
  rw [hprops]

/-- C8 counterexample: a gpu requirement declaring compute-capability 8.0
against a device with NO additional properties at all scores 60 with no
issue — the score is not reset to 0 despite the property being absent. -/
theorem c8_compute_capability_counterexample :
    reqGpuCc.computeCapability = some "8.0" ∧
    lookupStr pciDevB.additionalProperties "compute-capability" = none ∧
    scorePciDevice snapAllConnected reqGpuCc pciDevB = (60, []) := by
  decide

/-- C9: `StringToBytes` scales the `M` suffix by 1,048,576, so "300M" parses
to 314,572,800 bytes; the memory stage compares the parsed requirement
against the uint64 sum `TotalRam + TotalSwap` (wrapping modulo 2^64): host A
(200,000,000 + 200,000,000) passes with score contribution 1, host B
(100,000,000 + 200,000,000 = 300,000,000 < 314,572,800) fails and the
manifest's score is forced to 0; in general, for a parsed requirement and a
non-zero RAM report, the stage passes iff the wrapped sum
`(TotalRam + TotalSwap) % 2^64` covers the requirement. -/
theorem c9_memory_boundary :
    (StringToBytes "300M" = Except.ok 314572800 ∧
     checkEngine snapAllConnected hwMemA manifest300M = Except.ok (1, []) ∧
     checkEngine snapAllConnected hwMemB manifest300M =
       Except.ok (0, ["host system memory too small"])) ∧
    (∀ (hw : HwInfo) (m : Manifest) (s : String) (req : Nat),
      m.memory = some s → StringToBytes s = Except.ok req → hw.memory.totalRam ≠ 0 →
      checkEngineMemory hw m =
        (if (hw.memory.totalRam + hw.memory.totalSwap) % uint64Mod < req then
          Except.ok (0, ["host system memory too small"], false)
        else Except.ok (1, [], true))) := by
  constructor
  · exact ⟨by decide, by decide, by decide⟩
  · intro hw m s req hm hp hram
    unfold checkEngineMemory
    rw [hm]
    dsimp only
    rw [hp]
    dsimp only
    rw [if_neg hram]

/-- C9 witness: the general memory comparison applied to host B. -/
theorem c9_memory_boundary_witness :
    checkEngineMemory hwMemB manifest300M =
      (if (hwMemB.memory.totalRam + hwMemB.memory.totalSwap) % uint64Mod < 314572800 then
        Except.ok (0, ["host system memory too small"], false)
      else Except.ok (1, [], true)) :=
  c9_memory_boundary.2 hwMemB manifest300M "300M" 314572800 rfl (by decide) (by decide)
